import Mathlib

/-!
Shallow embedding of the review-analysis pipeline of `nlp_engine.py`
(classes `MultiModelSentimentAnalyzer`, `TopicModeler`,
`ReviewQualityScorer`, `NLPPipeline`), together with theorems checking the
claims of the specification about it.

Modelling conventions:
* Python floats are modelled as exact rationals; every numeric constant of
  the source appears as the equal rational (for instance 1.8 becomes 9/5).
* External library calls that are not code of this repository (NLTK
  tokenization and sentence splitting, the VADER scorer, the transformer
  pipeline, sklearn TF-IDF/NMF) are modelled as explicit function
  parameters of the embedded functions.
* Python strings are Lean `String`s; `str.strip` / `str.split` are
  re-implemented below on the character list so that every definition is
  executable by the kernel.
-/

namespace NlpEngine

/-- Enumeration `SentimentLabel` of `nlp_engine.py`. -/
inductive SentimentLabel
  | positive
  | negative
  | neutral
  deriving DecidableEq

/-- Dataclass `SentimentResult`: label, score in [0,1] (1 = most positive),
confidence, and the method tag.  The optional diagnostic `details` dict is
omitted: no claim mentions it. -/
structure SentimentResult where
  label : SentimentLabel
  score : ℚ
  confidence : ℚ
  method : String
  deriving DecidableEq

/-- Set `self.negation_words` of `TextPreprocessor._init_resources`. -/
def negation_words : List String :=
  ["not", "n\x27t", "never", "no", "none", "neither",
   "nobody", "nothing", "nowhere", "hardly", "barely"]

/-- Dict `self.positive_words` of
`MultiModelSentimentAnalyzer._init_lexicons` (weights as exact rationals). -/
def positive_words : List (String × ℚ) :=
  [("masterpiece", 2), ("brilliant", 9/5), ("outstanding", 17/10),
   ("amazing", 8/5), ("excellent", 8/5), ("fantastic", 3/2),
   ("wonderful", 3/2), ("incredible", 3/2), ("perfect", 9/5),
   ("beautiful", 13/10), ("stunning", 7/5), ("captivating", 7/5),
   ("compelling", 13/10), ("engaging", 6/5), ("gripping", 13/10),
   ("riveting", 7/5), ("breathtaking", 3/2), ("heartwarming", 13/10),
   ("hilarious", 7/5), ("touching", 13/10), ("powerful", 13/10),
   ("unforgettable", 3/2), ("genius", 8/5), ("flawless", 17/10),
   ("superb", 3/2), ("remarkable", 7/5), ("impressive", 13/10),
   ("love", 6/5), ("loved", 6/5), ("best", 7/5), ("great", 11/10),
   ("good", 4/5)]

/-- Dict `self.negative_words` of
`MultiModelSentimentAnalyzer._init_lexicons`. -/
def negative_words : List (String × ℚ) :=
  [("terrible", -9/5), ("awful", -17/10), ("horrible", -17/10),
   ("worst", -2), ("bad", -6/5), ("poor", -13/10), ("boring", -7/5),
   ("disappointing", -3/2), ("waste", -7/5), ("stupid", -13/10),
   ("ridiculous", -6/5), ("annoying", -6/5), ("dull", -13/10),
   ("weak", -11/10), ("mediocre", -1), ("forgettable", -6/5),
   ("predictable", -9/10), ("cliche", -1), ("overrated", -13/10),
   ("confusing", -11/10), ("slow", -4/5), ("painful", -7/5),
   ("unbearable", -8/5), ("disaster", -17/10), ("unwatchable", -9/5),
   ("pretentious", -13/10), ("tedious", -7/5), ("lifeless", -3/2)]

/-- Dict `self.intensifiers` of `MultiModelSentimentAnalyzer._init_lexicons`. -/
def intensifiers : List (String × ℚ) :=
  [("very", 3/2), ("really", 7/5), ("extremely", 9/5), ("absolutely", 17/10),
   ("completely", 8/5), ("totally", 3/2), ("utterly", 17/10),
   ("incredibly", 8/5), ("so", 13/10), ("highly", 7/5), ("truly", 7/5),
   ("particularly", 13/10)]

/-- Dict `self.diminishers` of `MultiModelSentimentAnalyzer._init_lexicons`. -/
def diminishers : List (String × ℚ) :=
  [("somewhat", 7/10), ("slightly", 3/5), ("barely", 1/2), ("hardly", 2/5),
   ("kind of", 3/5), ("sort of", 3/5), ("a bit", 7/10), ("a little", 7/10)]

/-- Modifier applied to the token at position `i` in `_analyze_lexicon`:
`intensifiers.get(prev, diminishers.get(prev, 1.0))` when `i > 0`,
otherwise `1.0`. -/
def lexModifier (tokens : List String) (i : Nat) : ℚ :=
  if 0 < i then
    match tokens[i-1]? with
    | some prev => ((intensifiers.lookup prev).getD ((diminishers.lookup prev).getD 1))
    | none => 1
  else 1

/-- Negation check of `_analyze_lexicon`:
`any(neg in tokens[max(0, i-3):i] for neg in self.preprocessor.negation_words)`. -/
def lexNegated (tokens : List String) (i : Nat) : Bool :=
  ((tokens.take i).drop (i - 3)).any (fun t => negation_words.contains t)

/-- Contribution of the token at position `i` to `total_score` in
`_analyze_lexicon`: `none` when the token is in neither lexicon, otherwise
the weight times the modifier, sign-flipped if negated. -/
def tokenContrib (tokens : List String) (i : Nat) (tok : String) : Option ℚ :=
  let modifier := lexModifier tokens i
  let negated := lexNegated tokens i
  match positive_words.lookup tok with
  | some b => some (if negated then -(b * modifier) else b * modifier)
  | none =>
    match negative_words.lookup tok with
    | some b => some (if negated then -(b * modifier) else b * modifier)
    | none => none

/-- The per-token contributions of the scoring loop of `_analyze_lexicon`,
in token order; `rest` is the remaining suffix and `i` the index of its
head in `tokens`.  The variable `total_score` of the loop is the sum of this list and
`word_count` is the length of this list. -/
def contribsAux (tokens : List String) : Nat → List String → List ℚ
  | _, [] => []
  | i, tok :: rs =>
    match tokenContrib tokens i tok with
    | some s => s :: contribsAux tokens (i+1) rs
    | none => contribsAux tokens (i+1) rs

/-- Contributions of all tokens, starting at index 0. -/
def contribs (tokens : List String) : List ℚ :=
  contribsAux tokens 0 tokens

/-- Method `MultiModelSentimentAnalyzer._analyze_lexicon`, as a function of
the token list produced by
`self.preprocessor.tokenize(text, remove_stopwords=False, lemmatize=False)`
(the tokenizer itself is NLTK, external to the repository). -/
def analyze_lexicon (tokens : List String) : SentimentResult :=
  let cs := contribs tokens
  if cs.length = 0 then
    ⟨SentimentLabel.neutral, 1/2, 0, "lexicon"⟩
  else
    let avg : ℚ := cs.sum / (cs.length : ℚ)
    let normalized : ℚ := max 0 (min 1 ((avg + 2) / 4))
    let label :=
      if 11/20 < normalized then SentimentLabel.positive
      else if normalized < 9/20 then SentimentLabel.negative
      else SentimentLabel.neutral
    ⟨label, normalized, |normalized - 1/2| * 2, "lexicon"⟩

example : (analyze_lexicon ["terrible"]).score = 1/20 := by
  simp [analyze_lexicon, contribs, contribsAux, tokenContrib, lexModifier,
    lexNegated, positive_words, negative_words, intensifiers, diminishers,
    negation_words, List.lookup]
  norm_num

example : (analyze_lexicon ["not", "terrible"]).score = 19/20 := by
  simp [analyze_lexicon, contribs, contribsAux, tokenContrib, lexModifier,
    lexNegated, positive_words, negative_words, intensifiers, diminishers,
    negation_words, List.lookup]
  norm_num

example : analyze_lexicon ["the", "plot"] = ⟨.neutral, 1/2, 0, "lexicon"⟩ := by
  simp [analyze_lexicon, contribs, contribsAux, tokenContrib, lexModifier,
    lexNegated, positive_words, negative_words, intensifiers, diminishers,
    negation_words, List.lookup]

/-! Helper lemmas about the lexicon tables and the clamp to [0,1]. -/

/-- A successful association-list lookup returns a pair of the list. -/
theorem lookup_mem {l : List (String × ℚ)} {k : String} {v : ℚ}
    (h : l.lookup k = some v) : (k, v) ∈ l := by
  induction l with
  | nil => simp [List.lookup] at h
  | cons p rest ih =>
    rcases p with ⟨a, b⟩
    rcases hk : (k == a) with _ | _
    · rw [List.lookup_cons, hk] at h
      exact List.mem_cons_of_mem _ (ih h)
    · rw [List.lookup_cons, hk] at h
      have h1 : b = v := Option.some.inj h
      have h2 : k = a := eq_of_beq hk
      subst h1
      subst h2
      exact List.mem_cons_self _ _

/-- Every diminisher factor is positive. -/
theorem diminishers_pos : ∀ p ∈ diminishers, (0:ℚ) < p.2 := by
  intro p hp
  fin_cases hp <;> norm_num

/-- Every intensifier factor is positive. -/
theorem intensifiers_pos : ∀ p ∈ intensifiers, (0:ℚ) < p.2 := by
  intro p hp
  fin_cases hp <;> norm_num

/-- The modifier applied to any token is positive, whatever the preceding
token is. -/
theorem lexModifier_pos (tokens : List String) (i : Nat) :
    0 < lexModifier tokens i := by
  unfold lexModifier
  split
  · split
    · rename_i prev _
      rcases h1 : intensifiers.lookup prev with _ | v
      · rcases h2 : diminishers.lookup prev with _ | v
        · simp [h1, h2]
        · simpa [h1, h2] using diminishers_pos _ (lookup_mem h2)
      · simpa [h1] using intensifiers_pos _ (lookup_mem h1)
    · norm_num
  · norm_num

/-- Clamping a value below 1/2 stays below 1/2. -/
theorem clamp_lt_half {x : ℚ} (h : x < 1/2) : max 0 (min 1 x) < 1/2 :=
  max_lt (by norm_num) (lt_of_le_of_lt (min_le_right 1 x) h)

/-- Clamping a value above 1/2 stays above 1/2. -/
theorem half_lt_clamp {x : ℚ} (h : 1/2 < x) : 1/2 < max 0 (min 1 x) :=
  lt_of_lt_of_le (lt_min (by norm_num) h) (le_max_right 0 _)

/-- A token contributes nothing exactly when it is in neither lexicon. -/
theorem tokenContrib_eq_none {tokens : List String} {i : Nat} {tok : String} :
    tokenContrib tokens i tok = none ↔
      positive_words.lookup tok = none ∧ negative_words.lookup tok = none := by
  unfold tokenContrib
  rcases h1 : positive_words.lookup tok with _ | b
  · rcases h2 : negative_words.lookup tok with _ | b
    · simp [h1, h2]
    · simp [h1, h2]
  · simp [h1]

/-- The contribution list is empty exactly when no token of the suffix
matches either lexicon. -/
theorem contribsAux_eq_nil_iff (tokens : List String) :
    ∀ (i : Nat) (rest : List String), contribsAux tokens i rest = [] ↔
      ∀ tok ∈ rest,
        positive_words.lookup tok = none ∧ negative_words.lookup tok = none := by
  intro i rest
  induction rest generalizing i with
  | nil => simp [contribsAux]
  | cons tok rs ih =>
    constructor
    · intro hnil
      rcases haux : tokenContrib tokens i tok with _ | s
      · intro t ht
        rcases List.mem_cons.mp ht with rfl | ht2
        · exact tokenContrib_eq_none.mp haux
        · have hrs : contribsAux tokens (i+1) rs = [] := by
            simpa [contribsAux, haux] using hnil
          exact (ih (i+1)).mp hrs t ht2
      · exfalso
        simp [contribsAux, haux] at hnil
    · intro h
      have hc : tokenContrib tokens i tok = none :=
        tokenContrib_eq_none.mpr (h tok (by simp))
      have hrs : contribsAux tokens (i+1) rs = [] :=
        (ih (i+1)).mpr (fun t ht => h t (by simp [ht]))
      simp [contribsAux, hc, hrs]

/-- The contribution list of the whole token list is empty exactly when no
token matches either lexicon. -/
theorem contribs_eq_nil_iff (tokens : List String) :
    contribs tokens = [] ↔
      ∀ tok ∈ tokens,
        positive_words.lookup tok = none ∧ negative_words.lookup tok = none :=
  contribsAux_eq_nil_iff tokens 0 tokens

/-- C2: for every token sequence, the lexicon scorer returns
neutral/score 0.5/confidence 0 when no token matched the positive or
negative lexicon; otherwise it returns score = clamp((sum/count + 2)/4, 0, 1),
label positive iff that score > 0.55, negative iff < 0.45, neutral
otherwise, and confidence = |score - 0.5| * 2. -/
theorem C2_lexicon_contract (tokens : List String) :
    ((∀ tok ∈ tokens,
        positive_words.lookup tok = none ∧ negative_words.lookup tok = none) →
      analyze_lexicon tokens = ⟨SentimentLabel.neutral, 1/2, 0, "lexicon"⟩) ∧
    ((∃ tok ∈ tokens,
        positive_words.lookup tok ≠ none ∨ negative_words.lookup tok ≠ none) →
      (analyze_lexicon tokens).score =
        max 0 (min 1 (((contribs tokens).sum / ((contribs tokens).length : ℚ) + 2) / 4)) ∧
      ((analyze_lexicon tokens).label = SentimentLabel.positive ↔
        11/20 < (analyze_lexicon tokens).score) ∧
      ((analyze_lexicon tokens).label = SentimentLabel.negative ↔
        (analyze_lexicon tokens).score < 9/20) ∧
      ((analyze_lexicon tokens).label = SentimentLabel.neutral ↔
        (9/20 ≤ (analyze_lexicon tokens).score ∧
         (analyze_lexicon tokens).score ≤ 11/20)) ∧
      (analyze_lexicon tokens).confidence =
        |(analyze_lexicon tokens).score - 1/2| * 2) := by
  constructor
  · intro h
    have hc : contribs tokens = [] := (contribs_eq_nil_iff tokens).mpr h
    simp [analyze_lexicon, hc]
  · intro h
    have hne : contribs tokens ≠ [] := by
      intro hc
      obtain ⟨tok, ht, hk⟩ := h
      have := (contribs_eq_nil_iff tokens).mp hc tok ht
      tauto
    have hlen : ¬ (contribs tokens).length = 0 := by
      simpa [List.length_eq_zero] using hne
    simp only [analyze_lexicon, if_neg hlen]
    set N : ℚ :=
      max 0 (min 1 (((contribs tokens).sum / ((contribs tokens).length : ℚ) + 2) / 4))
      with hN
    by_cases h1 : 11/20 < N
    · have h2 : ¬ N < 9/20 := by linarith
      have h3 : ¬ N ≤ 11/20 := by linarith
      simp [h1, h2, h3]
    · by_cases h2 : N < 9/20
      · have h3 : ¬ 9/20 ≤ N := by linarith
        simp [h1, h2, h3]
      · have h3 : 9/20 ≤ N := by linarith
        have h4 : N ≤ 11/20 := by linarith
        simp [h1, h2, h3, h4]

/-- Witness for C2: on ["zzz"] (no lexicon hit) the neutral default comes
back; on ["good"] (one positive hit, weight 0.8) the score is the clamped
normalization and the label is positive. -/
theorem C2_witness :
    analyze_lexicon ["zzz"] = ⟨SentimentLabel.neutral, 1/2, 0, "lexicon"⟩ ∧
    (analyze_lexicon ["good"]).score =
      max 0 (min 1 (((contribs ["good"]).sum / ((contribs ["good"]).length : ℚ) + 2) / 4)) ∧
    (analyze_lexicon ["good"]).label = SentimentLabel.positive := by
  have h1 := (C2_lexicon_contract ["zzz"]).1 (by
    intro tok ht
    simp at ht
    subst ht
    exact ⟨by simp [positive_words, List.lookup], by simp [negative_words, List.lookup]⟩)
  have h2 := (C2_lexicon_contract ["good"]).2
    ⟨"good", by simp, Or.inl (by simp [positive_words, List.lookup])⟩
  refine ⟨h1, h2.1, ?_⟩
  rw [h2.2.1]
  have hgood : (analyze_lexicon ["good"]).score = 7/10 := by
    simp [analyze_lexicon, contribs, contribsAux, tokenContrib, lexModifier,
      lexNegated, positive_words, negative_words, intensifiers, diminishers,
      negation_words, List.lookup]
    norm_num
  rw [hgood]
  norm_num

/-- Evaluation of the lexicon scorer when exactly one token matched, with
contribution c. -/
theorem analyze_lexicon_singleton (c : ℚ) (tokens : List String)
    (h : contribs tokens = [c]) :
    (analyze_lexicon tokens).score = max 0 (min 1 ((c + 2) / 4)) := by
  simp [analyze_lexicon, h]

/-- C3: the lexicon scorer flips the sign of the sentiment weight of a word when
a negation word occurs among the 3 tokens immediately preceding it; in
particular, for any negation word directly before any negative-lexicon word
(weight v < 0), the resulting score is strictly greater than the score of
the negative word alone — for instance "not terrible" versus "terrible". -/
theorem C3_negation_flip (neg w : String) (v : ℚ)
    (hneg : neg ∈ negation_words)
    (hnp : positive_words.lookup neg = none)
    (hnn : negative_words.lookup neg = none)
    (hwp : positive_words.lookup w = none)
    (hwn : negative_words.lookup w = some v)
    (hv : v < 0) :
    (analyze_lexicon [w]).score < (analyze_lexicon [neg, w]).score := by
  have hm : 0 < lexModifier [neg, w] 1 := lexModifier_pos _ _
  have e1 : contribs [neg, w] = [-(v * lexModifier [neg, w] 1)] := by
    simp [contribs, contribsAux, tokenContrib, lexNegated, hnp, hnn, hwp, hwn,
      hneg]
  have e2 : contribs [w] = [v] := by
    simp [contribs, contribsAux, tokenContrib, lexNegated, lexModifier, hwp, hwn]
  rw [analyze_lexicon_singleton _ _ e2, analyze_lexicon_singleton _ _ e1]
  refine lt_trans (clamp_lt_half ?_) (half_lt_clamp ?_)
  · linarith
  · have : v * lexModifier [neg, w] 1 < 0 := mul_neg_of_neg_of_pos hv hm
    linarith

/-- Witness for C3 at the concrete inputs of the claim: the token sequence
of "not terrible" scores strictly higher than that of "terrible". -/
theorem C3_witness :
    "not" ∈ negation_words ∧
    negative_words.lookup "terrible" = some (-9/5) ∧
    (analyze_lexicon ["terrible"]).score < (analyze_lexicon ["not", "terrible"]).score := by
  refine ⟨by simp [negation_words], by simp [negative_words, List.lookup], ?_⟩
  exact C3_negation_flip "not" "terrible" (-9/5)
    (by simp [negation_words])
    (by simp [positive_words, List.lookup])
    (by simp [negative_words, List.lookup])
    (by simp [positive_words, List.lookup])
    (by simp [negative_words, List.lookup])
    (by norm_num)

/-- C4: lexicon-scorer modifier monotonicity — "very good" scores at least
"good", "slightly good" scores at most "good"; every intensifier factor is
greater than 1 and every diminisher factor is less than 1. -/
theorem C4_modifier_monotonicity :
    (analyze_lexicon ["good"]).score ≤ (analyze_lexicon ["very", "good"]).score ∧
    (analyze_lexicon ["slightly", "good"]).score ≤ (analyze_lexicon ["good"]).score ∧
    (∀ p ∈ intensifiers, 1 < p.2) ∧
    (∀ p ∈ diminishers, p.2 < 1) := by
  have egood : (analyze_lexicon ["good"]).score = 7/10 := by
    simp [analyze_lexicon, contribs, contribsAux, tokenContrib, lexModifier,
      lexNegated, positive_words, negative_words, intensifiers, diminishers,
      negation_words, List.lookup]
    norm_num
  have every : (analyze_lexicon ["very", "good"]).score = 4/5 := by
    simp [analyze_lexicon, contribs, contribsAux, tokenContrib, lexModifier,
      lexNegated, positive_words, negative_words, intensifiers, diminishers,
      negation_words, List.lookup]
    norm_num
  have eslight : (analyze_lexicon ["slightly", "good"]).score = 31/50 := by
    simp [analyze_lexicon, contribs, contribsAux, tokenContrib, lexModifier,
      lexNegated, positive_words, negative_words, intensifiers, diminishers,
      negation_words, List.lookup]
    norm_num
  refine ⟨by rw [egood, every]; norm_num, by rw [eslight, egood]; norm_num, ?_, ?_⟩
  · intro p hp
    fin_cases hp <;> norm_num
  · intro p hp
    fin_cases hp <;> norm_num

/-- C10: "hardly" and "barely" are both negation words and diminishers, so
a sentiment word directly after them is both scaled by the diminisher
factor (0.4 resp. 0.5) and sign-flipped: with "good" (weight 0.8) the
score is clamp((-(0.8·factor) + 2)/4). -/
theorem C10_hardly_barely_cumulative :
    "hardly" ∈ negation_words ∧ "barely" ∈ negation_words ∧
    diminishers.lookup "hardly" = some (2/5) ∧
    diminishers.lookup "barely" = some (1/2) ∧
    positive_words.lookup "good" = some (4/5) ∧
    (analyze_lexicon ["hardly", "good"]).score =
      max 0 (min 1 ((-(4/5 * (2/5)) + 2) / 4)) ∧
    (analyze_lexicon ["barely", "good"]).score =
      max 0 (min 1 ((-(4/5 * (1/2)) + 2) / 4)) := by
  refine ⟨by simp [negation_words], by simp [negation_words],
    by simp [diminishers, List.lookup], by simp [diminishers, List.lookup],
    by simp [positive_words, List.lookup], ?_, ?_⟩
  · have e : (analyze_lexicon ["hardly", "good"]).score = 21/50 := by
      simp [analyze_lexicon, contribs, contribsAux, tokenContrib, lexModifier,
        lexNegated, positive_words, negative_words, intensifiers, diminishers,
        negation_words, List.lookup]
      norm_num
    rw [e]
    norm_num
  · have e : (analyze_lexicon ["barely", "good"]).score = 2/5 := by
      simp [analyze_lexicon, contribs, contribsAux, tokenContrib, lexModifier,
        lexNegated, positive_words, negative_words, intensifiers, diminishers,
        negation_words, List.lookup]
      norm_num
    rw [e]
    norm_num

/-! Ensemble fusion (`_analyze_ensemble`) and the `analyze` entry point. -/

/-- First occurrences, in encounter order, of a label list; models the key
insertion order of the Python dict `label_scores`. -/
def firstOcc : List SentimentLabel → List SentimentLabel
  | [] => []
  | a :: rest => a :: (firstOcc rest).filter (fun b => decide (b ≠ a))

/-- First element attaining the maximal value of `f`; models Python
`max(keys, key=f)`, which replaces the current best only on a strictly
greater value. -/
def argmaxFirst (f : SentimentLabel → ℚ) : List SentimentLabel → Option SentimentLabel
  | [] => none
  | a :: rest => some (rest.foldl (fun b x => if f b < f x then x else b) a)

/-- Method `MultiModelSentimentAnalyzer._analyze_ensemble`, as a function of
the three detector results: `trans` is the transformer result (`none` when
the model is unavailable or failed), `vader` the VADER result and `lexicon`
the lexicon result.  Weights are 0.5/0.3/0.2 when `trans` is present and
0.5/0.5 for VADER/lexicon otherwise, exactly as in the code. -/
def analyze_ensemble (trans : Option SentimentResult)
    (vader lexicon : SentimentResult) : SentimentResult :=
  let pairs : List (SentimentResult × ℚ) :=
    match trans with
    | some t => [(t, 1/2), (vader, 3/10), (lexicon, 1/5)]
    | none => [(vader, 1/2), (lexicon, 1/2)]
  let wsum : ℚ := (pairs.map (fun p => p.2)).sum
  let labelScore : SentimentLabel → ℚ := fun lab =>
    ((pairs.filter (fun p => decide (p.1.label = lab))).map
      (fun p => p.2 * p.1.confidence)).sum
  let final_label :=
    (argmaxFirst labelScore (firstOcc (pairs.map (fun p => p.1.label)))).getD
      SentimentLabel.neutral
  let final_confidence := labelScore final_label / wsum
  let avg_score := ((pairs.map (fun p => p.1.score * p.2)).sum) / wsum
  ⟨final_label, avg_score, final_confidence, "ensemble"⟩

/-- C5: the final ensemble score is the weight-normalized average of the
participating detector scores (weights 0.5/0.3/0.2 with the transformer,
0.5/0.5 without) and therefore lies within [min, max] of the participating
scores. -/
theorem C5_ensemble_convex (trans : Option SentimentResult)
    (vader lexicon : SentimentResult) :
    match trans with
    | some t =>
        (analyze_ensemble trans vader lexicon).score =
          (t.score * (1/2) + vader.score * (3/10) + lexicon.score * (1/5)) /
            (1/2 + 3/10 + 1/5) ∧
        min t.score (min vader.score lexicon.score) ≤
          (analyze_ensemble trans vader lexicon).score ∧
        (analyze_ensemble trans vader lexicon).score ≤
          max t.score (max vader.score lexicon.score)
    | none =>
        (analyze_ensemble trans vader lexicon).score =
          (vader.score * (1/2) + lexicon.score * (1/2)) / (1/2 + 1/2) ∧
        min vader.score lexicon.score ≤
          (analyze_ensemble trans vader lexicon).score ∧
        (analyze_ensemble trans vader lexicon).score ≤
          max vader.score lexicon.score := by
  rcases trans with _ | t
  · have e : (analyze_ensemble none vader lexicon).score =
        (vader.score * (1/2) + lexicon.score * (1/2)) / (1/2 + 1/2) := by
      simp [analyze_ensemble]
    have hd : ((1:ℚ)/2 + 1/2) = 1 := by norm_num
    refine ⟨e, ?_, ?_⟩
    · rw [e, hd, div_one]
      have h1 := min_le_left vader.score lexicon.score
      have h2 := min_le_right vader.score lexicon.score
      linarith
    · rw [e, hd, div_one]
      have h1 := le_max_left vader.score lexicon.score
      have h2 := le_max_right vader.score lexicon.score
      linarith
  · have e : (analyze_ensemble (some t) vader lexicon).score =
        (t.score * (1/2) + vader.score * (3/10) + lexicon.score * (1/5)) /
          (1/2 + 3/10 + 1/5) := by
      simp [analyze_ensemble]
      ring
    have hd : ((1:ℚ)/2 + 3/10 + 1/5) = 1 := by norm_num
    refine ⟨e, ?_, ?_⟩
    · rw [e, hd, div_one]
      have h1 := min_le_left t.score (min vader.score lexicon.score)
      have h2 := min_le_right t.score (min vader.score lexicon.score)
      have h3 := min_le_left vader.score lexicon.score
      have h4 := min_le_right vader.score lexicon.score
      linarith
    · rw [e, hd, div_one]
      have h1 := le_max_left t.score (max vader.score lexicon.score)
      have h2 := le_max_right t.score (max vader.score lexicon.score)
      have h3 := le_max_left vader.score lexicon.score
      have h4 := le_max_right vader.score lexicon.score
      linarith

/-! String helpers modelling the Python built-ins used by the guard and the
fallback tokenizer. -/

/-- Python `str.strip()`: remove leading and trailing whitespace. -/
def pyStrip (s : String) : String :=
  String.mk
    (((s.toList.dropWhile Char.isWhitespace).reverse.dropWhile
      Char.isWhitespace).reverse)

/-- Split a character list at whitespace (groups between whitespace runs). -/
def wsSplitChars : List Char → List (List Char)
  | [] => [[]]
  | c :: cs =>
    let rest := wsSplitChars cs
    if c.isWhitespace then [] :: rest
    else
      match rest with
      | [] => [[c]]
      | w :: ws => (c :: w) :: ws

/-- Python `str.split()` with no argument: whitespace-separated words,
empty pieces dropped. -/
def pyWords (s : String) : List String :=
  ((wsSplitChars s.toList).filter (fun g => !g.isEmpty)).map String.mk

/-- Fallback tokenization `text.lower().split()` of
`TextPreprocessor.tokenize`.  Also used as the concrete tokenizer instance
in witnesses below; on those simple inputs it coincides with the NLTK
tokenization path. -/
def toksWS (s : String) : List String :=
  pyWords (String.mk (s.toList.map Char.toLower))

/-- Number of non-whitespace characters of a string (the measure used by
the claim about the short-text guard). -/
def countNonWS (s : String) : Nat :=
  (s.toList.filter (fun c => !c.isWhitespace)).length

/-- Result built by `analyze` for empty or too-short text. -/
def defaultResult : SentimentResult :=
  ⟨SentimentLabel.neutral, 1/2, 0, "default"⟩

/-- Method `MultiModelSentimentAnalyzer.analyze`: the guard
`if not text or len(text.strip()) < 10` returns the default result,
otherwise dispatch on the method tag (method "transformer" falls back to VADER
when the transformer returns nothing; any unknown tag runs the ensemble).
`transFn` models `_analyze_transformer`, `vaderFn` models `_analyze_vader`
and `toksFn` the tokenizer feeding `_analyze_lexicon`; all three are
external signals. -/
def analyze (transFn : String → Option SentimentResult)
    (vaderFn : String → SentimentResult) (toksFn : String → List String)
    (method : String) (text : String) : SentimentResult :=
  if text = "" ∨ (pyStrip text).length < 10 then defaultResult
  else if method = "transformer" then (transFn text).getD (vaderFn text)
  else if method = "vader" then vaderFn text
  else if method = "lexicon" then analyze_lexicon (toksFn text)
  else analyze_ensemble (transFn text) (vaderFn text) (analyze_lexicon (toksFn text))

/-- C1 (amended): for every input text that is empty or has fewer than 10
characters after stripping leading and trailing whitespace, `analyze`
(with any method and any detector behaviour) returns the default
neutral/0.5/0 result without invoking any detector. -/
theorem C1_short_text_guard (transFn : String → Option SentimentResult)
    (vaderFn : String → SentimentResult) (toksFn : String → List String)
    (method text : String)
    (h : text = "" ∨ (pyStrip text).length < 10) :
    analyze transFn vaderFn toksFn method text = defaultResult := by
  unfold analyze
  rw [if_pos h]

/-- Constant transformer signal: model unavailable (`None`). -/
def transNone : String → Option SentimentResult := fun _ => none

/-- Constant VADER signal: the neutral result VADER produces on text with
no lexicon hits (compound 0). -/
def vaderNeutral : String → SentimentResult :=
  fun _ => ⟨SentimentLabel.neutral, 1/2, 0, "vader"⟩

/-- Witness for C1 at the concrete input "bad" (3 characters). -/
theorem C1_witness :
    (("bad" : String) = "" ∨ (pyStrip "bad").length < 10) ∧
    analyze transNone vaderNeutral toksWS "ensemble" "bad" = defaultResult := by
  refine ⟨Or.inr (by decide), ?_⟩
  exact C1_short_text_guard transNone vaderNeutral toksWS "ensemble" "bad"
    (Or.inr (by decide))

/-- Counterexample to C1 as stated: the text "a        b" (one letter a,
eight spaces, one letter b) has only 2 non-whitespace characters, yet
`len(text.strip())` is 10, so the guard does not fire: the ensemble runs
(method tag "ensemble", detectors invoked) instead of the claimed
detector-free default result. -/
theorem C1_counterexample :
    countNonWS "a        b" = 2 ∧ (2:Nat) < 10 ∧
    (analyze transNone vaderNeutral toksWS "ensemble" "a        b").method =
      "ensemble" ∧
    analyze transNone vaderNeutral toksWS "ensemble" "a        b" ≠
      defaultResult := by
  have hm : (analyze transNone vaderNeutral toksWS "ensemble" "a        b").method =
      "ensemble" := by decide
  refine ⟨by decide, by decide, hm, fun hEq => ?_⟩
  rw [hEq] at hm
  simp [defaultResult] at hm

/-! Topic modelling (`TopicModeler.fit`) and the pipeline frame. -/

namespace TopicModeler

/-- Preprocessing loop of `TopicModeler.fit`: keep, in order, the token
lists of the documents that are non-empty strings of length strictly
greater than 20 and that yield at least one token.  `toks` models
`self.preprocessor.tokenize(self.preprocessor.clean(doc))` (NLTK plus
regex cleaning, both external to the fitting logic). -/
def processedTokens (toks : String → List String) (docs : List String) :
    List (List String) :=
  docs.filterMap (fun d =>
    if d ≠ "" ∧ 20 < d.length then
      match toks d with
      | [] => none
      | ts => some ts
    else none)

/-- Method `TopicModeler.fit`.  `nmf` models the try-block
(TfidfVectorizer + NMF `fit_transform`, external library code): it returns
the document-topic matrix (one row per processed document) or `none` when
the library raises.  The Bool is the return value of fit; the Option is the
fitted document-topic state (`none` = unfitted: the code returns False
before assigning any model state). -/
def fit (toks : String → List String)
    (nmf : List (List String) → Option (List (List ℚ))) (k : Nat)
    (docs : List String) : Bool × Option (List (List ℚ)) :=
  let pt := processedTokens toks docs
  if pt.length < 2 * k then (false, none)
  else
    match nmf pt with
    | some dt => (true, some dt)
    | none => (false, none)

/-- When `fit` reports failure it has assigned no fitted state. -/
theorem fit_false (toks : String → List String)
    (nmf : List (List String) → Option (List (List ℚ))) (k : Nat)
    (docs : List String) (h : (fit toks nmf k docs).1 = false) :
    (fit toks nmf k docs).2 = none := by
  by_cases hc : (processedTokens toks docs).length < 2 * k
  · simp [fit, hc]
  · rcases hn : nmf (processedTokens toks docs) with _ | dt
    · simp [fit, hc, hn]
    · simp [fit, hc, hn] at h

end TopicModeler

/-- First index of the maximal entry of a row (numpy `argmax`, first
occurrence wins); 0 on the empty row. -/
def argmaxRowAux : Nat × ℚ → Nat → List ℚ → Nat × ℚ
  | best, _, [] => best
  | best, i, y :: ys => argmaxRowAux (if best.2 < y then (i, y) else best) (i+1) ys

/-- First index of the maximal entry (numpy `argmax`). -/
def argmaxRow : List ℚ → Nat
  | [] => 0
  | x :: xs => (argmaxRowAux (0, x) 1 xs).1

/-- Maximal entry of a row (numpy `max`); 0 on the empty row. -/
def maxRow : List ℚ → ℚ
  | [] => 0
  | x :: xs => xs.foldl max x

/-- Columns of the DataFrame returned by `NLPPipeline.process_dataframe`.
`contents` is the input text column (processing adds columns to a copy and
never changes the rows); the aspect column is omitted, no claim depends on
it.  `topic_cols` is `some` exactly when the two topic columns were
assigned. -/
structure ProcessedFrame where
  contents : List String
  sentiment_label : List SentimentLabel
  sentiment_score : List ℚ
  sentiment_confidence : List ℚ
  quality_score : List ℚ
  topic_cols : Option (List (Nat × ℚ))

/-- Method `NLPPipeline.process_dataframe`.  `sentFn` models one
`self.sentiment_analyzer.analyze` call per row and `qualFn` one
`self.quality_scorer.score(t)` overall-value call per row.  With topics
enabled the topic step runs `TopicModeler.fit` over all texts and assigns
the per-document argmax/max columns only when the fit succeeded and the
matrix has exactly one row per frame row
(`doc_topics is not None and len(doc_topics) == len(df)`). -/
def process_dataframe (sentFn : String → SentimentResult) (qualFn : String → ℚ)
    (toks : String → List String)
    (nmf : List (List String) → Option (List (List ℚ)))
    (k : Nat) (run_topics : Bool) (texts : List String) : ProcessedFrame :=
  let sentiments := texts.map sentFn
  { contents := texts
    sentiment_label := sentiments.map (fun s => s.label)
    sentiment_score := sentiments.map (fun s => s.score)
    sentiment_confidence := sentiments.map (fun s => s.confidence)
    quality_score := texts.map qualFn
    topic_cols :=
      if run_topics then
        match (TopicModeler.fit toks nmf k texts).2 with
        | some dt =>
          if dt.length = texts.length then
            some (dt.map (fun row => (argmaxRow row, maxRow row)))
          else none
        | none => none
      else none }

/-- Summary dict of `NLPPipeline.get_summary` (fields the claims use; the
aspect and topic summaries are omitted).  `value_counts` is modelled as the
per-label counts. -/
structure CorpusSummary where
  total_reviews : Nat
  positive_count : Nat
  negative_count : Nat
  neutral_count : Nat
  positive_fraction : ℚ
  avg_sentiment_score : ℚ
  avg_quality_score : ℚ

/-- Method `NLPPipeline.get_summary`. -/
def get_summary (f : ProcessedFrame) : CorpusSummary :=
  { total_reviews := f.contents.length
    positive_count :=
      (f.sentiment_label.filter (fun l => decide (l = SentimentLabel.positive))).length
    negative_count :=
      (f.sentiment_label.filter (fun l => decide (l = SentimentLabel.negative))).length
    neutral_count :=
      (f.sentiment_label.filter (fun l => decide (l = SentimentLabel.neutral))).length
    positive_fraction :=
      ((f.sentiment_label.filter (fun l => decide (l = SentimentLabel.positive))).length : ℚ) /
        (f.sentiment_label.length : ℚ)
    avg_sentiment_score := f.sentiment_score.sum / (f.sentiment_score.length : ℚ)
    avg_quality_score := f.quality_score.sum / (f.quality_score.length : ℚ) }

/-- C6 (amended): `TopicModeler.fit` keeps exactly the documents of length
strictly greater than 20 characters that yield at least one token (so a
20-character document is discarded too), and when fewer than 2·k usable
documents remain it returns False — a failure value, not an exception —
with the model state left unfitted. -/
theorem C6_fit_insufficient (toks : String → List String)
    (nmf : List (List String) → Option (List (List ℚ))) (k : Nat)
    (docs : List String) :
    TopicModeler.processedTokens toks docs =
      docs.filterMap (fun d =>
        if 20 < d.length ∧ toks d ≠ [] then some (toks d) else none) ∧
    ((TopicModeler.processedTokens toks docs).length < 2 * k →
      TopicModeler.fit toks nmf k docs = (false, none)) := by
  constructor
  · have hfun : ∀ d : String,
        (if d ≠ "" ∧ 20 < d.length then
          (match toks d with | [] => none | ts => some ts)
        else none) =
        (if 20 < d.length ∧ toks d ≠ [] then some (toks d) else none) := by
      intro d
      by_cases hlen : 20 < d.length
      · have hne : d ≠ "" := by
          intro h
          rw [h] at hlen
          simp at hlen
        rcases htk : toks d with _ | ⟨t, ts⟩
        · simp [hlen, hne, htk]
        · simp [hlen, hne, htk]
      · simp [hlen]
    unfold TopicModeler.processedTokens
    congr 1
    funext d
    exact hfun d
  · intro h
    simp [TopicModeler.fit, h]

/-- Abstract NMF instance used in witnesses: always succeeds, one
single-component row per processed document. -/
def nmfStub : List (List String) → Option (List (List ℚ)) :=
  fun ds => some (ds.map (fun _ => [1]))

/-- Witness for C6 at a concrete 9-character corpus: zero usable documents,
fewer than 2·1, so fit fails and the state stays unfitted. -/
theorem C6_witness :
    TopicModeler.processedTokens toksWS ["short doc"] =
      [("short doc" : String)].filterMap (fun d =>
        if 20 < d.length ∧ toksWS d ≠ [] then some (toksWS d) else none) ∧
    TopicModeler.fit toksWS nmfStub 1 ["short doc"] = (false, none) := by
  have h := C6_fit_insufficient toksWS nmfStub 1 ["short doc"]
  exact ⟨h.1, h.2 (by decide)⟩

/-- Reading of the discard rule of the claim, modelled from the spec words for
C6 ("discard documents under 20 characters or yielding zero tokens"): a
document is usable iff its length is NOT under 20 and it yields tokens.
Used only to exhibit the divergence at exactly 20 characters. -/
def usableDocsClaim (toks : String → List String) (docs : List String) :
    List String :=
  docs.filter (fun d => decide (¬ d.length < 20 ∧ toks d ≠ []))

/-- The 20-character document of the C6 counterexample. -/
def d20 : String := "aaaaaaaaaaaaaaaaaaaa"

/-- Counterexample to C6 as stated: a 20-character document is not "under
20 characters" and yields a token, so under the discard rule of the claim the
corpus [d20, d20] has 2 usable documents — not fewer than 2·1 — yet the
code (which keeps only documents with `len(doc) > 20`) discards both and
`fit` returns the failure value. -/
theorem C6_counterexample :
    d20.length = 20 ∧ ¬ d20.length < 20 ∧ toksWS d20 ≠ [] ∧
    usableDocsClaim toksWS [d20, d20] = [d20, d20] ∧
    ¬ ((usableDocsClaim toksWS [d20, d20]).length < 2 * 1) ∧
    TopicModeler.fit toksWS nmfStub 1 [d20, d20] = (false, none) := by
  refine ⟨by decide, by decide, by decide, by decide, by decide, by decide⟩

/-- C8: the corpus summary of the processed frame reports `total_reviews`
equal to the number of input reviews — processing neither drops nor adds
rows — for any non-empty input collection and any detector/quality/topic
behaviour. -/
theorem C8_roundtrip_total (sentFn : String → SentimentResult)
    (qualFn : String → ℚ) (toks : String → List String)
    (nmf : List (List String) → Option (List (List ℚ))) (k : Nat)
    (run_topics : Bool) (texts : List String) (h : texts ≠ []) :
    (get_summary
        (process_dataframe sentFn qualFn toks nmf k run_topics texts)).total_reviews =
      texts.length := by
  simp [get_summary, process_dataframe]

/-- Witness for C8 on a concrete two-review corpus. -/
theorem C8_witness :
    (get_summary
        (process_dataframe vaderNeutral (fun _ => 0) toksWS nmfStub 1 true
          ["nice film", "bad film"])).total_reviews = 2 := by
  have h := C8_roundtrip_total vaderNeutral (fun _ => 0) toksWS nmfStub 1 true
    ["nice film", "bad film"] (by simp)
  simpa using h

/-- C9 (amended): with topics enabled, whenever the topic-model fit
succeeds AND the document-topic matrix has exactly one row per input row,
the frame carries per-document topic id (arg-max of the row) and topic
confidence (max of the row); whenever the fit fails, the topic columns are
omitted and the remaining columns are still produced, one entry per row. -/
theorem C9_topic_columns (sentFn : String → SentimentResult)
    (qualFn : String → ℚ) (toks : String → List String)
    (nmf : List (List String) → Option (List (List ℚ))) (k : Nat)
    (texts : List String) :
    (∀ dt, TopicModeler.fit toks nmf k texts = (true, some dt) →
      dt.length = texts.length →
      (process_dataframe sentFn qualFn toks nmf k true texts).topic_cols =
        some (dt.map (fun row => (argmaxRow row, maxRow row)))) ∧
    ((TopicModeler.fit toks nmf k texts).1 = false →
      (process_dataframe sentFn qualFn toks nmf k true texts).topic_cols = none ∧
      (process_dataframe sentFn qualFn toks nmf k true texts).sentiment_label.length =
        texts.length ∧
      (process_dataframe sentFn qualFn toks nmf k true texts).sentiment_score.length =
        texts.length ∧
      (process_dataframe sentFn qualFn toks nmf k true texts).quality_score.length =
        texts.length) := by
  constructor
  · intro dt hfit hlen
    have h2 : (TopicModeler.fit toks nmf k texts).2 = some dt := by rw [hfit]
    simp [process_dataframe, h2, hlen]
  · intro hfalse
    have h2 := TopicModeler.fit_false toks nmf k texts hfalse
    simp [process_dataframe, h2]

/-- Witness for C9: on a corpus of two usable documents (k = 1) the fit
succeeds with one matrix row per row of the frame and the topic columns
appear; on a single short document the fit fails and the columns are
omitted while the other columns keep one entry per row. -/
theorem C9_witness :
    TopicModeler.fit toksWS nmfStub 1
        ["this movie was great fun", "the plot was quite boring"] =
      (true, some [[1], [1]]) ∧
    (process_dataframe vaderNeutral (fun _ => 0) toksWS nmfStub 1 true
        ["this movie was great fun", "the plot was quite boring"]).topic_cols =
      some [(0, 1), (0, 1)] ∧
    (process_dataframe vaderNeutral (fun _ => 0) toksWS nmfStub 1 true
        ["short"]).topic_cols = none ∧
    (process_dataframe vaderNeutral (fun _ => 0) toksWS nmfStub 1 true
        ["short"]).quality_score.length = 1 := by
  have hfit : TopicModeler.fit toksWS nmfStub 1
      ["this movie was great fun", "the plot was quite boring"] =
      (true, some [[1], [1]]) := by decide
  have h := C9_topic_columns vaderNeutral (fun _ => 0) toksWS nmfStub 1
    ["this movie was great fun", "the plot was quite boring"]
  have h2 := C9_topic_columns vaderNeutral (fun _ => 0) toksWS nmfStub 1 ["short"]
  have hfail := h2.2 (by decide)
  exact ⟨hfit, by simpa using h.1 [[1], [1]] hfit (by decide), hfail.1,
    hfail.2.2.2⟩

/-- Counterexample to C9 as stated: with k = 1 and three input documents of
which only two are usable, the fit succeeds (2 ≥ 2·1), but the matrix has
2 rows against 3 frame rows, so the code silently omits the topic columns
even though the fit succeeded. -/
theorem C9_counterexample :
    (TopicModeler.fit toksWS nmfStub 1
        ["this movie was great fun", "the plot was quite boring", "short"]).1 =
      true ∧
    (process_dataframe vaderNeutral (fun _ => 0) toksWS nmfStub 1 true
        ["this movie was great fun", "the plot was quite boring", "short"]).topic_cols =
      none := by
  exact ⟨by decide, by decide⟩

/-! Review quality scoring (`ReviewQualityScorer.score`). -/

/-- Round to the nearest integer, ties to even (Python `round` on exact
values). -/
def pyRound (q : ℚ) : ℤ :=
  let f := ⌊q⌋
  let r := q - (f : ℚ)
  if r < 1/2 then f
  else if 1/2 < r then f + 1
  else if f % 2 = 0 then f else f + 1

/-- Python `round(x, 3)`. -/
def round3 (q : ℚ) : ℚ := (pyRound (q * 1000) : ℚ) / 1000

namespace ReviewQualityScorer

/-- Return dict of `ReviewQualityScorer.score`: the overall value and the
`details` sub-score map (an empty list models the empty dict). -/
structure QualityOutput where
  overall : ℚ
  details : List (String × ℚ)
  deriving DecidableEq

/-- Method `ReviewQualityScorer.score`.  `toks` models
`self.preprocessor.tokenize(text, remove_stopwords=True)` and `sents`
models `self.preprocessor.extract_sentences(text)`; both are NLTK-based
and external.  Mirrors the code: guard on empty/short text, then the four
sub-scores (length, diversity, structure, substance) and the weighted
overall, rounded to 3 decimals. -/
def score (toks sents : String → List String) (text : String) : QualityOutput :=
  if text = "" ∨ text.length < 20 then ⟨0, []⟩
  else
    let L : ℚ := (text.length : ℚ)
    let lengthScore : ℚ :=
      if text.length < 50 then L / 50
      else if text.length ≤ 800 then 1
      else max (1/2) (1 - (L - 800) / 2000)
    let tk := toks text
    let diversityScore : ℚ :=
      if tk.length ≠ 0 then
        min (((tk.dedup.length : ℚ) / (tk.length : ℚ)) * (13/10)) 1
      else 0
    let ss := sents text
    let structureScore : ℚ :=
      if ss.length ≠ 0 then
        let avgLen : ℚ :=
          ((ss.map (fun s => ((pyWords s).length : ℚ))).sum) / (ss.length : ℚ)
        if 8 ≤ avgLen ∧ avgLen ≤ 25 then 1
        else if avgLen < 8 then avgLen / 8
        else max (3/10) (1 - (avgLen - 25) / 30)
      else 3/10
    let substanceScore : ℚ :=
      min (((tk.filter (fun t => decide (3 < t.length))).length : ℚ) / 10) 1
    let overall :=
      round3 (lengthScore * (1/5) + diversityScore * (3/10) +
        structureScore * (1/5) + substanceScore * (3/10))
    ⟨overall, [("length", lengthScore), ("diversity", diversityScore),
               ("structure", structureScore), ("substance", substanceScore)]⟩

end ReviewQualityScorer

/-- C7 (amended): for every empty or under-20-character input text,
`ReviewQualityScorer.score` returns overall 0.0 with an empty detail map,
without raising; for any text of length at least 20 the overall score is
the weighted sum of the four sub-scores (weights length 0.2, diversity
0.3, structure 0.2, substance 0.3) rounded to 3 decimal places. -/
theorem C7_quality_contract (toks sents : String → List String)
    (text : String) :
    ((text = "" ∨ text.length < 20) →
      ReviewQualityScorer.score toks sents text = ⟨0, []⟩) ∧
    (¬ (text = "" ∨ text.length < 20) →
      ∃ ls ds st su,
        (ReviewQualityScorer.score toks sents text).details =
          [("length", ls), ("diversity", ds), ("structure", st),
           ("substance", su)] ∧
        (ReviewQualityScorer.score toks sents text).overall =
          round3 (ls * (1/5) + ds * (3/10) + st * (1/5) + su * (3/10))) := by
  constructor
  · intro h
    simp only [ReviewQualityScorer.score, if_pos h]
  · intro h
    simp only [ReviewQualityScorer.score, if_neg h]
    exact ⟨_, _, _, _, rfl, rfl⟩

/-- Concrete 34-character review text used in the C7 witness and
counterexample: 7 tokens, 3 distinct, all longer than 3 characters. -/
def qText : String := "good good good good good nice best"

/-- One-sentence splitter instance: what NLTK `sent_tokenize` returns on
punctuation-free text. -/
def oneSent : String → List String := fun t => [t]

/-- Witness for C7 on the empty text and on `qText`. -/
theorem C7_witness :
    ReviewQualityScorer.score toksWS oneSent "" = ⟨0, []⟩ ∧
    ∃ ls ds st su,
      (ReviewQualityScorer.score toksWS oneSent qText).details =
        [("length", ls), ("diversity", ds), ("structure", st),
         ("substance", su)] ∧
      (ReviewQualityScorer.score toksWS oneSent qText).overall =
        round3 (ls * (1/5) + ds * (3/10) + st * (1/5) + su * (3/10)) :=
  ⟨(C7_quality_contract toksWS oneSent "").1 (Or.inl rfl),
   (C7_quality_contract toksWS oneSent qText).2 (by decide)⟩

/-- Full evaluation of the quality scorer on `qText`: the sub-scores are
length 34/50 = 17/25, diversity (3/7)·(13/10) = 39/70, structure 7/8,
substance 7/10, and the overall is the rounded value 0.688. -/
theorem score_qText_eval :
    ReviewQualityScorer.score toksWS oneSent qText =
      ⟨86/125, [("length", 17/25), ("diversity", 39/70), ("structure", 7/8),
                ("substance", 7/10)]⟩ := by
  have htk : toksWS "good good good good good nice best"
      = ["good", "good", "good", "good", "good", "nice", "best"] := by decide
  have hw : pyWords "good good good good good nice best"
      = ["good", "good", "good", "good", "good", "nice", "best"] := by decide
  have hdd : (["good", "good", "good", "good", "good", "nice", "best"] :
      List String).dedup = ["good", "nice", "best"] := by decide
  have hsub : (["good", "good", "good", "good", "good", "nice", "best"] :
      List String).filter (fun t => decide (3 < t.length))
      = ["good", "good", "good", "good", "good", "nice", "best"] := by decide
  have hlen : ("good good good good good nice best" : String).length = 34 := by
    decide
  have hround : round3 (4817/7000) = 86/125 := by
    have hpr : pyRound (4817/7) = 688 := by
      have hfl : ⌊(4817/7 : ℚ)⌋ = 688 := by
        rw [Int.floor_eq_iff]
        constructor <;> norm_num
      unfold pyRound
      rw [hfl]
      norm_num
    unfold round3
    rw [show (4817/7000 : ℚ) * 1000 = 4817/7 by norm_num, hpr]
    norm_num
  simp only [ReviewQualityScorer.score, oneSent, qText, htk, hw, hdd, hsub, hlen]
  norm_num [hw, min_def, max_def]
  rw [if_neg (by decide : ¬("good good good good good nice best" : String) = "")]
  rw [hround]

/-- Counterexample to C7 as stated: on `qText` (34 characters) the four
sub-scores are 17/25, 39/70, 7/8 and 7/10, whose weighted sum is
4817/7000 = 0.68814285…, but the code returns `round(·, 3)` of it, namely
0.688: the overall is NOT the exact weighted sum of the sub-scores. -/
theorem C7_counterexample :
    ¬ (qText = "" ∨ qText.length < 20) ∧
    ReviewQualityScorer.score toksWS oneSent qText =
      ⟨86/125, [("length", 17/25), ("diversity", 39/70), ("structure", 7/8),
                ("substance", 7/10)]⟩ ∧
    (ReviewQualityScorer.score toksWS oneSent qText).overall ≠
      (17/25) * (1/5) + (39/70) * (3/10) + (7/8) * (1/5) + (7/10) * (3/10) := by
  refine ⟨by decide, score_qText_eval, ?_⟩
  rw [score_qText_eval]
  norm_num

end NlpEngine
